import Mathlib

/-!
Shallow embedding of `busstops/stops/models.py`: the four data-mapping
methods (`Stop.set_from_api`, `Route.set_from_api`, `Trip.set_from_api`,
`TripStop.set_from_api`) translated statement by statement.

Modelling choices:
* A Django model instance is a record whose unset attributes are `none`
  (an `IntegerField`/`CharField` attribute of a freshly constructed
  instance is `None` in Python unless the field declares a default).
* A method that mutates `self` and may `raise` becomes a function
  returning `Except ApiError Unit × Record`: the first component says
  whether the call raised, the second is the state of the record after
  the call (assignments made before a raise are kept, exactly as in
  Python).
* JSON numbers that are only carried, never computed with, are `Rat`;
  JSON strings are `String`; a JSON field that may be `null` or absent
  is an `Option`.
* `int(str)` is `pyInt`, `s[:n]` is `strTake`, `x or None` is `pyOrNone`,
  `time.gmtime` / `datetime.time` are `gmtime` / `pyTime`, the GEOS
  `Point` / `LineString` constructors are `Point.mk` / `mkLineString`,
  and `Stop.objects.get(id=i)` is `stopGet` over an explicit stop table.
-/

namespace BusStops

/-- The failure modes of the mapping methods: the explicit
`ValueError` raised on an id mismatch, a `ValueError`/`TypeError`/`KeyError`
from coercing or accessing a payload field, the GEOS error for a
degenerate line string, and Django's `DoesNotExist` from `objects.get`. -/
inductive ApiError
  | identityMismatch
  | malformed
  | invalidGeometry
  | notFound
deriving DecidableEq, Repr

instance {ε α : Type} [DecidableEq ε] [DecidableEq α] : DecidableEq (Except ε α) := fun x y =>
  match x, y with
  | Except.ok a, Except.ok b =>
      if h : a = b then isTrue (by rw [h]) else isFalse (fun he => h (Except.ok.inj he))
  | Except.ok _, Except.error _ => isFalse (fun he => Except.noConfusion he)
  | Except.error _, Except.ok _ => isFalse (fun he => Except.noConfusion he)
  | Except.error e, Except.error f =>
      if h : e = f then isTrue (by rw [h]) else isFalse (fun he => h (Except.error.inj he))

def digitsVal (l : List Char) : Nat :=
  l.foldl (fun a c => a * 10 + (c.toNat - 48)) 0

/-- Model of Python `int(s)` on a decimal string: an optional sign followed
by at least one digit (whitespace trimming and `_` separators, which no
payload in this repository uses, are not modelled). `none` is `ValueError`. -/
def pyInt (s : String) : Option Int :=
  match s.data with
  | '-' :: rest =>
      if rest ≠ [] ∧ rest.all Char.isDigit then some (-(digitsVal rest : Int)) else none
  | '+' :: rest =>
      if rest ≠ [] ∧ rest.all Char.isDigit then some ((digitsVal rest : Int)) else none
  | cs =>
      if cs ≠ [] ∧ cs.all Char.isDigit then some ((digitsVal cs : Int)) else none

/-- Model of the Python slice `s[:n]`: the first `n` characters. -/
def strTake (s : String) (n : Nat) : String :=
  String.mk (s.data.take n)

/-- Model of the Python idiom `x or None`: a falsy value (here `None` or
the empty string) collapses to `None`. -/
def pyOrNone (v : Option String) : Option String :=
  match v with
  | none => none
  | some s => if s = "" then none else some s

/-- A GEOS `Point(x, y)`: `x` is the first constructor argument
(longitude in every call site), `y` the second (latitude). -/
structure Point where
  x : Rat
  y : Rat
deriving DecidableEq, Repr

/-- The `Stop` model: `id` (primary key, `stop_id` from API values),
`stop_code`, `stop_name` (max length 300), `geom` (a point).
`created_at`/`modified_at` are auto-managed timestamp columns the mapping
never touches and are not modelled. -/
structure Stop where
  id : Option Int
  stop_code : Option Int
  stop_name : Option String
  geom : Option Point
deriving DecidableEq, Repr

/-- A freshly constructed `Stop()`: every attribute unset. -/
def emptyStop : Stop := ⟨none, none, none, none⟩

/-- The fields of a stop API payload that `Stop.set_from_api` reads. -/
structure StopPayload where
  stop_id : String
  stop_code : String
  stop_name : String
  stop_lon : Rat
  stop_lat : Rat
deriving DecidableEq, Repr

/-- `Stop.set_from_api(self, api_data)`:
```
if self.id is not None and int(api_data['stop_id']) != self.id:
    raise ValueError(...)
self.stop_code = int(api_data['stop_code'])
self.stop_name = api_data['stop_name'][:300]
self.geom = Point(api_data['stop_lon'], api_data['stop_lat'])
```
Note the method never assigns `self.id`. -/
def Stop.set_from_api (s : Stop) (p : StopPayload) : Except ApiError Unit × Stop :=
  let body : Stop → Except ApiError Unit × Stop := fun s0 =>
    match pyInt p.stop_code with
    | none => (Except.error ApiError.malformed, s0)
    | some c =>
      let s1 := { s0 with stop_code := some c }
      let s2 := { s1 with stop_name := some (strTake p.stop_name 300) }
      let s3 := { s2 with geom := some (Point.mk p.stop_lon p.stop_lat) }
      (Except.ok (), s3)
  match s.id with
  | some i =>
    match pyInt p.stop_id with
    | none => (Except.error ApiError.malformed, s)
    | some j =>
      if j ≠ i then (Except.error ApiError.identityMismatch, s) else body s
  | none => body s

/-- The `Route` model: `id` (primary key, `route_id` from API values),
short/long names (max length 300, nullable), nullable description, and two
color columns with declared default `"000000"`. -/
structure Route where
  id : Option Int
  route_short_name : Option String
  route_long_name : Option String
  route_desc : Option String
  route_color : Option String
  route_text_color : Option String
deriving DecidableEq, Repr

/-- A freshly constructed `Route()`: the two color columns take their
declared default `"000000"`; everything else is unset. -/
def emptyRoute : Route := ⟨none, none, none, none, some "000000", some "000000"⟩

/-- The fields of a route API payload that `Route.set_from_api` reads.
`route_desc`, `route_color` and `route_text_color` may be JSON `null`. -/
structure RoutePayload where
  route_id : String
  route_short_name : String
  route_long_name : String
  route_desc : Option String
  route_color : Option String
  route_text_color : Option String
deriving DecidableEq, Repr

/-- `Route.set_from_api(self, api_data)`:
```
if self.id is not None and int(api_data['route_id']) != self.id:
    raise ValueError(...)
self.route_short_name = api_data['route_short_name'][:300]
self.route_long_name = api_data['route_long_name'][:300]
self.route_desc = api_data['route_desc'] or None
self.route_color = api_data['route_color'] or None
self.route_text_color = api_data['route_text_color'] or None
```
Never assigns `self.id`. -/
def Route.set_from_api (r : Route) (p : RoutePayload) : Except ApiError Unit × Route :=
  let body : Route → Except ApiError Unit × Route := fun r0 =>
    let r1 := { r0 with route_short_name := some (strTake p.route_short_name 300) }
    let r2 := { r1 with route_long_name := some (strTake p.route_long_name 300) }
    let r3 := { r2 with route_desc := pyOrNone p.route_desc }
    let r4 := { r3 with route_color := pyOrNone p.route_color }
    let r5 := { r4 with route_text_color := pyOrNone p.route_text_color }
    (Except.ok (), r5)
  match r.id with
  | some i =>
    match pyInt p.route_id with
    | none => (Except.error ApiError.malformed, r)
    | some j =>
      if j ≠ i then (Except.error ApiError.identityMismatch, r) else body r
  | none => body r

/-- A GEOS `LineString`: an ordered sequence of coordinate pairs
(each pair `[longitude, latitude]` as it appears in the payload). -/
structure LineStr where
  points : List (Rat × Rat)
deriving DecidableEq, Repr

/-- Model of the GEOS `LineString(*coords)` constructor: building a line
string from fewer than two points raises (a path needs at least two
vertices; the constraint lives in the underlying geometry library). -/
def mkLineString (l : List (Rat × Rat)) : Except ApiError LineStr :=
  if l.length < 2 then Except.error ApiError.invalidGeometry else Except.ok ⟨l⟩

/-- The `Trip` model: `id` (primary key, `trip_id` from API values),
`trip_headsign` (max length 300), `geom` (a line string). These are all
its mapped fields; the model declares no route association. -/
structure Trip where
  id : Option Int
  trip_headsign : Option String
  geom : Option LineStr
deriving DecidableEq, Repr

/-- A freshly constructed `Trip()`: every attribute unset. -/
def emptyTrip : Trip := ⟨none, none, none⟩

/-- The fields of a trip API payload that `Trip.set_from_api` reads.
`route_id` is `Option` because the documented trip payload does not carry
it: `api_data['route_id']` on such a payload raises `KeyError`. -/
structure TripPayload where
  trip_id : String
  route_id : Option String
  trip_headsign : String
  coordinates : List (Rat × Rat)
deriving DecidableEq, Repr

/-- `Trip.set_from_api(self, api_data)`:
```
if self.id is not None and int(api_data['route_id']) != self.id:
    raise ValueError(...)
self.trip_headsign = api_data['trip_headsign'][:300]
self.geom = LineString(*[coord for coord in api_data['geometry']['coordinates']])
```
The method takes no other parameter, compares `route_id` (not `trip_id`)
against `self.id`, and never assigns `self.id` or any route attribute.
If `LineString` raises, the headsign assignment is already in place. -/
def Trip.set_from_api (t : Trip) (p : TripPayload) : Except ApiError Unit × Trip :=
  let body : Trip → Except ApiError Unit × Trip := fun t0 =>
    let t1 := { t0 with trip_headsign := some (strTake p.trip_headsign 300) }
    match mkLineString p.coordinates with
    | Except.error e => (Except.error e, t1)
    | Except.ok ls => (Except.ok (), { t1 with geom := some ls })
  match t.id with
  | some i =>
    match p.route_id with
    | none => (Except.error ApiError.malformed, t)
    | some rid =>
      match pyInt rid with
      | none => (Except.error ApiError.malformed, t)
      | some j =>
        if j ≠ i then (Except.error ApiError.identityMismatch, t) else body t
  | none => body t

/-- The fields of `time.struct_time` that the code reads. -/
structure StructTime where
  tm_hour : Nat
  tm_min : Nat
  tm_sec : Nat
deriving DecidableEq, Repr

/-- Model of `time.gmtime(n)` restricted to its time-of-day fields: the
UTC clock reading `n` seconds after the epoch, i.e. the Euclidean
remainder of `n` modulo 86400 split into hours, minutes and seconds. -/
def gmtime (n : Int) : StructTime :=
  let secsOfDay : Nat := (n % 86400).toNat
  ⟨secsOfDay / 3600, secsOfDay % 3600 / 60, secsOfDay % 60⟩

/-- A `datetime.time` value. -/
structure Time where
  hour : Nat
  minute : Nat
  second : Nat
deriving DecidableEq, Repr

/-- Model of the `datetime.time(hour, minute, second)` constructor,
including its range validation (`ValueError` out of range). -/
def pyTime (h m s : Nat) : Except ApiError Time :=
  if h < 24 ∧ m < 60 ∧ s < 60 then Except.ok ⟨h, m, s⟩
  else Except.error ApiError.malformed

/-- The `TripStop` model: foreign keys to `Trip` and `Stop`, two time
columns and a sequence number. -/
structure TripStop where
  trip : Option Trip
  stop : Option Stop
  arrival_time : Option Time
  departure_time : Option Time
  stop_sequence : Option Int
deriving DecidableEq, Repr

/-- A freshly constructed `TripStop()`: every attribute unset. -/
def emptyTripStop : TripStop := ⟨none, none, none, none, none⟩

/-- The fields of a trip-stop API payload that `TripStop.set_from_api`
reads: the nested `stop.stop_id`, the two integer times, and the
sequence number. -/
structure TripStopPayload where
  stop_stop_id : String
  arrival_time : Int
  departure_time : Int
  stop_sequence : Int
deriving DecidableEq, Repr

/-- Model of `Stop.objects.get(id=i)`: look the stop up in the stop
table; an unknown id raises `DoesNotExist`. -/
def stopGet (db : List Stop) (i : Int) : Except ApiError Stop :=
  match db.find? (fun s => decide (s.id = some i)) with
  | some s => Except.ok s
  | none => Except.error ApiError.notFound

/-- The state a `TripStop.set_from_api(self, api_data, trip)` call can
read or write: the record being populated (`self`), the `trip` argument,
and the persistence layer's stop table behind `Stop.objects`. -/
structure TSState where
  record : TripStop
  trip : Trip
  stops : List Stop
deriving DecidableEq, Repr

/-- `TripStop.set_from_api(self, api_data, trip)`:
```
self.trip = trip
self.stop = Stop.objects.get(id=int(api_data['stop']['stop_id']))
arrtime = time.gmtime(int(api_data['arrival_time']))
self.arrival_time = datetime.time(arrtime.tm_hour, arrtime.tm_min, arrtime.tm_sec)
deptime = time.gmtime(int(api_data['departure_time']))
self.departure_time = datetime.time(deptime.tm_hour, deptime.tm_min, deptime.tm_sec)
self.stop_sequence = int(api_data['stop_sequence'])
```
Every assignment targets `self`; the whole state is threaded so that a
raise part-way keeps the assignments already made, exactly as in Python. -/
def TripStop.set_from_api (st : TSState) (p : TripStopPayload) : Except ApiError Unit × TSState :=
  let r1 := { st.record with trip := some st.trip }
  match pyInt p.stop_stop_id with
  | none => (Except.error ApiError.malformed, { st with record := r1 })
  | some sid =>
    match stopGet st.stops sid with
    | Except.error e => (Except.error e, { st with record := r1 })
    | Except.ok foundStop =>
      let r2 := { r1 with stop := some foundStop }
      let a := gmtime p.arrival_time
      match pyTime a.tm_hour a.tm_min a.tm_sec with
      | Except.error e => (Except.error e, { st with record := r2 })
      | Except.ok arrv =>
        let r3 := { r2 with arrival_time := some arrv }
        let d := gmtime p.departure_time
        match pyTime d.tm_hour d.tm_min d.tm_sec with
        | Except.error e => (Except.error e, { st with record := r3 })
        | Except.ok depv =>
          let r4 := { r3 with departure_time := some depv }
          let r5 := { r4 with stop_sequence := some p.stop_sequence }
          (Except.ok (), { st with record := r5 })

/-- The conversion the specification describes for the time fields:
reduce the integer modulo 86400 and decompose the remainder into hour,
minute and second. -/
def specTimeOfDay (n : Int) : Time :=
  let r : Nat := (n % 86400).toNat
  ⟨r / 3600, r / 60 % 60, r % 60⟩

/-- Concrete data for the identity-mismatch scenarios. -/
def c1Stop : Stop := { emptyStop with id := some 1884 }

def c1StopPayload : StopPayload :=
  { stop_id := "25662", stop_code := "1", stop_name := "X", stop_lon := 0, stop_lat := 0 }

def c1Route : Route := { emptyRoute with id := some 2777 }

def c1RoutePayload : RoutePayload :=
  { route_id := "2778", route_short_name := " 44", route_long_name := "Twinbrook-Rockville",
    route_desc := none, route_color := some "0000FF", route_text_color := some "FFFFFF" }

/-- The exact stop payload of the end-to-end scenario (and of `test_stop`). -/
def c2Payload : StopPayload :=
  { stop_id := "1884", stop_code := "21884", stop_name := "EAST WEST HWY & CONNECTICUT AVE",
    stop_lon := -77.076255, stop_lat := 38.987993 }

/-- A trip record already bound to trip id 425677. -/
def c3Trip : Trip := { emptyTrip with id := some 425677 }

/-- A payload whose `trip_id` is 425677 (matching `c3Trip`) but whose
`route_id` is 2777. -/
def c3Payload : TripPayload :=
  { trip_id := "425677", route_id := some "2777", trip_headsign := "Twinbrook",
    coordinates := [(-77.147223, 39.084786), (-77.1473, 39.084788)] }

/-- A trip record whose id happens to equal the payload's route id 2777. -/
def c3TripB : Trip := { emptyTrip with id := some 2777 }

/-- The exact trip payload of `test_trip` (which carries no `route_id`
key at all). -/
def c4Payload : TripPayload :=
  { trip_id := "425677", route_id := none, trip_headsign := "Twinbrook",
    coordinates := [(-77.147223, 39.084786), (-77.1473, 39.084788),
      (-77.14736, 39.084778), (-77.147406, 39.084755)] }

/-- The two-point payload named by the claim. -/
def c6Payload : TripPayload :=
  { trip_id := "425677", route_id := none, trip_headsign := "Twinbrook",
    coordinates := [(-77.147223, 39.084786), (-77.1473, 39.084788)] }

/-- The record `Trip.set_from_api` produces from `c6Payload`. -/
def c6Result : Trip :=
  ⟨none, some "Twinbrook", some (LineStr.mk [(-77.147223, 39.084786), (-77.1473, 39.084788)])⟩

/-- A one-point trip payload. -/
def c7ShortPayload : TripPayload :=
  { trip_id := "1", route_id := none, trip_headsign := "x", coordinates := [(0, 0)] }

/-- A two-point trip payload. -/
def c7TwoPayload : TripPayload :=
  { trip_id := "1", route_id := none, trip_headsign := "x", coordinates := [(0, 0), (1, 1)] }

/-- A route payload with `route_desc` null, `route_color` the empty
string and `route_text_color` null. -/
def c8Payload : RoutePayload :=
  { route_id := "2777", route_short_name := " 44", route_long_name := "Twinbrook-Rockville",
    route_desc := none, route_color := some "", route_text_color := none }

/-- The record `Route.set_from_api` produces from `c8Payload` on a fresh
route. -/
def c8Result : Route := ⟨none, some " 44", some "Twinbrook-Rockville", none, none, none⟩

/-- The spec's end-to-end route payload: `route_desc` null while both
colors are present and non-empty. -/
def c8MixedPayload : RoutePayload :=
  { route_id := "2777", route_short_name := " 44", route_long_name := "Twinbrook-Rockville",
    route_desc := none, route_color := some "0000FF", route_text_color := some "FFFFFF" }

/-- The record `Route.set_from_api` produces from `c8MixedPayload` on a
fresh route. -/
def c8MixedResult : Route :=
  ⟨none, some " 44", some "Twinbrook-Rockville", none, some "0000FF", some "FFFFFF"⟩

/-- A 301-character stop name. -/
def c9LongName : String := String.mk (List.replicate 301 'A')

/-- A stop payload carrying the 301-character name. -/
def c9Payload : StopPayload :=
  { stop_id := "1", stop_code := "2", stop_name := c9LongName, stop_lon := 0, stop_lat := 0 }

/-- The stop row the trip-stop scenario looks up. -/
def wStop : Stop := { emptyStop with id := some 4150 }

/-- The trip passed to the trip-stop scenario. -/
def wTrip : Trip := { emptyTrip with id := some 425677 }

/-- Initial state of the trip-stop scenario: a fresh record, the trip
argument, and a stop table containing `wStop`. -/
def wState : TSState := ⟨emptyTripStop, wTrip, [wStop]⟩

/-- The documented trip-stop payload, with the test's departure time. -/
def wPayload : TripStopPayload :=
  { stop_stop_id := "4150", arrival_time := 67504, departure_time := 67707, stop_sequence := 2 }

/-- The state after `TripStop.set_from_api wState wPayload`. -/
def wResult : TSState :=
  ⟨⟨some wTrip, some wStop, some ⟨18, 45, 4⟩, some ⟨18, 48, 27⟩, some 2⟩, wTrip, [wStop]⟩

/-- `datetime.time` applied to the fields of `time.gmtime(n)` always
validates, and yields exactly the modulo-86400 decomposition of `n`. -/
theorem pyTime_gmtime (n : Int) :
    pyTime (gmtime n).tm_hour (gmtime n).tm_min (gmtime n).tm_sec
      = Except.ok (specTimeOfDay n) := by
  have h0 : 0 ≤ n % 86400 := Int.emod_nonneg n (by norm_num)
  have h1 : n % 86400 < 86400 := Int.emod_lt_of_pos n (by norm_num)
  have hr : (n % 86400).toNat < 86400 := by omega
  unfold pyTime gmtime specTimeOfDay
  simp only []
  rw [if_pos]
  · refine congrArg Except.ok ?_
    refine congrArg₂ (Time.mk ((n % 86400).toNat / 3600)) ?_ rfl
    omega
  · refine ⟨by omega, by omega, by omega⟩

/-- C1: if a `Stop` (resp. `Route`) record already has a non-null id and the
payload's `stop_id` (resp. `route_id`) parses to a different integer, the
`set_from_api` call raises the identity-mismatch `ValueError` and the record
is returned exactly as it was: no field is changed, because the check is the
first statement of the method. -/
theorem identity_mismatch_fails_without_mutation
    (s : Stop) (ps : StopPayload) (i j : Int)
    (hs : s.id = some i) (hj : pyInt ps.stop_id = some j) (hne : j ≠ i)
    (r : Route) (pr : RoutePayload) (k l : Int)
    (hk : r.id = some k) (hl : pyInt pr.route_id = some l) (hne2 : l ≠ k) :
    Stop.set_from_api s ps = (Except.error ApiError.identityMismatch, s) ∧
    Route.set_from_api r pr = (Except.error ApiError.identityMismatch, r) := by
  constructor
  · simp [Stop.set_from_api, hs, hj, hne]
  · simp [Route.set_from_api, hk, hl, hne2]

/-- Witness for C1 at the concrete inputs above. -/
theorem identity_mismatch_fails_without_mutation_witness :
    Stop.set_from_api c1Stop c1StopPayload = (Except.error ApiError.identityMismatch, c1Stop) ∧
    Route.set_from_api c1Route c1RoutePayload = (Except.error ApiError.identityMismatch, c1Route) :=
  identity_mismatch_fails_without_mutation c1Stop c1StopPayload 1884 25662 rfl (by decide)
    (by decide) c1Route c1RoutePayload 2777 2778 rfl (by decide) (by decide)

/-- C2 (code bug): on an empty record the call succeeds and sets
`stop_code = 21884`, the name, and the point `(-77.076255, 38.987993)`
in (longitude, latitude) order — but the record's `id` stays `None`:
`Stop.set_from_api` never assigns `self.id`, so the claimed (and
test-asserted) `id = 1884` does not hold. -/
theorem stop_populate_never_assigns_id :
    Stop.set_from_api emptyStop c2Payload =
      (Except.ok (),
        (⟨none, some 21884, some "EAST WEST HWY & CONNECTICUT AVE",
          some ⟨-77.076255, 38.987993⟩⟩ : Stop)) ∧
    (Stop.set_from_api emptyStop c2Payload).2.id ≠ some 1884 := by
  constructor
  · rfl
  · decide

/-- C3 (code bug): the identity check of `Trip.set_from_api` compares
`int(api_data['route_id'])` — not the trip's own `trip_id` — against
`self.id`. With matching trip ids (both 425677) but `route_id` 2777 the
call raises the identity-mismatch error; with a record whose id equals
the payload's `route_id` (2777) the call succeeds even though the
payload's `trip_id` (425677) differs from the record's id. -/
theorem trip_identity_check_reads_route_id :
    (pyInt c3Payload.trip_id = c3Trip.id ∧
      Trip.set_from_api c3Trip c3Payload = (Except.error ApiError.identityMismatch, c3Trip)) ∧
    (pyInt c3Payload.trip_id ≠ c3TripB.id ∧
      (Trip.set_from_api c3TripB c3Payload).1 = Except.ok ()) := by
  refine ⟨⟨by decide, rfl⟩, by decide, rfl⟩

/-- C4 (code bug): `Trip.set_from_api` takes no `Route` parameter (its
Python signature is `set_from_api(self, api_data)`), the `Trip` model
declares no route column, and a successful call produces a record made of
exactly the three fields id / headsign / geometry — there is no route
association to set, contradicting the claim (and `test_trip`, which calls
the method with a route argument and asserts `trip.route`). -/
theorem trip_populate_sets_no_route_association :
    Trip.set_from_api emptyTrip c4Payload =
      (Except.ok (), Trip.mk none (some "Twinbrook") (some (LineStr.mk c4Payload.coordinates))) := by
  rfl

/-- Shape of a successful `Trip.set_from_api`: the coordinate list had at
least two points, the headsign is the truncated payload headsign, and the
geometry is the payload's coordinate sequence unchanged. -/
theorem trip_set_ok_shape (t t0 : Trip) (p : TripPayload)
    (h : Trip.set_from_api t p = (Except.ok (), t0)) :
    2 ≤ p.coordinates.length ∧
    t0 = { t with
           trip_headsign := some (strTake p.trip_headsign 300),
           geom := some (LineStr.mk p.coordinates) } := by
  unfold Trip.set_from_api at h
  by_cases hlen : p.coordinates.length < 2
  · exfalso
    simp only [mkLineString, if_pos hlen] at h
    repeat' split at h
    all_goals simp_all
  · simp only [mkLineString, if_neg hlen] at h
    repeat' split at h
    all_goals simp_all

/-- C6: a successful trip populate stores as the path exactly the
payload's coordinate pairs, in their original order. -/
theorem trip_path_preserves_coordinate_order (t t0 : Trip) (p : TripPayload)
    (h : Trip.set_from_api t p = (Except.ok (), t0)) :
    t0.geom = some (LineStr.mk p.coordinates) := by
  rw [(trip_set_ok_shape t t0 p h).2]

/-- Witness for C6 on the coordinate list from the claim. -/
theorem trip_path_preserves_coordinate_order_witness :
    c6Result.geom = some (LineStr.mk c6Payload.coordinates) :=
  trip_path_preserves_coordinate_order emptyTrip c6Result c6Payload rfl

/-- C7: with fewer than two coordinate pairs a trip populate can never
succeed (the line-string constructor refuses to build the path), and with
two or more pairs the geometry failure cannot occur (any failure then
comes from the identity check or field coercion, not from the path). -/
theorem trip_short_coordinate_list_fails (t : Trip) (p : TripPayload) :
    (p.coordinates.length < 2 → ∀ t0, Trip.set_from_api t p ≠ (Except.ok (), t0)) ∧
    (2 ≤ p.coordinates.length →
      ∀ t0, Trip.set_from_api t p ≠ (Except.error ApiError.invalidGeometry, t0)) := by
  constructor
  · intro hlen t0 h
    exact absurd (trip_set_ok_shape t t0 p h).1 (by omega)
  · intro hlen t0 h
    unfold Trip.set_from_api mkLineString at h
    repeat' split at h
    all_goals simp_all

/-- Witness for C7: one point can never give a success, two points never
give the geometry failure. -/
theorem trip_short_coordinate_list_fails_witness :
    Trip.set_from_api emptyTrip c7ShortPayload ≠ (Except.ok (), emptyTrip) ∧
    Trip.set_from_api emptyTrip c7TwoPayload ≠ (Except.error ApiError.invalidGeometry, emptyTrip) :=
  ⟨(trip_short_coordinate_list_fails emptyTrip c7ShortPayload).1 (by decide) emptyTrip,
   (trip_short_coordinate_list_fails emptyTrip c7TwoPayload).2 (by decide) emptyTrip⟩

/-- Shape of a successful `Route.set_from_api`. -/
theorem route_set_ok_shape (r r0 : Route) (p : RoutePayload)
    (h : Route.set_from_api r p = (Except.ok (), r0)) :
    r0 = { r with
           route_short_name := some (strTake p.route_short_name 300),
           route_long_name := some (strTake p.route_long_name 300),
           route_desc := pyOrNone p.route_desc,
           route_color := pyOrNone p.route_color,
           route_text_color := pyOrNone p.route_text_color } := by
  unfold Route.set_from_api at h
  repeat' split at h
  all_goals simp_all

/-- C8: a falsy (`null` or empty-string) `route_desc`, `route_color` or
`route_text_color` in the payload is stored as an absent value, never as
the empty string and never as the `"000000"` default; the `"000000"`
default exists only on a freshly constructed record. -/
theorem route_falsy_optionals_stored_as_null
    (r r0 : Route) (p : RoutePayload)
    (h : Route.set_from_api r p = (Except.ok (), r0)) :
    (p.route_desc = none ∨ p.route_desc = some "" → r0.route_desc = none) ∧
    (p.route_color = none ∨ p.route_color = some "" → r0.route_color = none) ∧
    (p.route_text_color = none ∨ p.route_text_color = some "" → r0.route_text_color = none) ∧
    emptyRoute.route_color = some "000000" ∧ emptyRoute.route_text_color = some "000000" := by
  obtain rfl := route_set_ok_shape r r0 p h
  refine ⟨?_, ?_, ?_, rfl, rfl⟩
  · rintro (h1 | h1) <;> simp [pyOrNone, h1]
  · rintro (h1 | h1) <;> simp [pyOrNone, h1]
  · rintro (h1 | h1) <;> simp [pyOrNone, h1]

/-- Witness for C8: on the all-falsy payload each optional is stored
absent, and on the spec's mixed scenario (null `route_desc`, colors
`"0000FF"`/`"FFFFFF"`) the description alone is stored absent. -/
theorem route_falsy_optionals_stored_as_null_witness :
    (c8Result.route_desc = none ∧ c8Result.route_color = none ∧
      c8Result.route_text_color = none) ∧
    c8MixedResult.route_desc = none ∧
    emptyRoute.route_color = some "000000" ∧ emptyRoute.route_text_color = some "000000" :=
  ⟨⟨(route_falsy_optionals_stored_as_null emptyRoute c8Result c8Payload rfl).1 (Or.inl rfl),
    (route_falsy_optionals_stored_as_null emptyRoute c8Result c8Payload rfl).2.1 (Or.inr rfl),
    (route_falsy_optionals_stored_as_null emptyRoute c8Result c8Payload rfl).2.2.1 (Or.inl rfl)⟩,
   (route_falsy_optionals_stored_as_null emptyRoute c8MixedResult c8MixedPayload rfl).1
     (Or.inl rfl),
   rfl, rfl⟩

/-- C9: a stop payload name is always stored as its first 300 characters —
over-length input never makes the call fail, an over-length name is cut to
exactly 300 characters, and a name of at most 300 characters is stored
unchanged. -/
theorem stop_name_truncated_to_300
    (s : Stop) (p : StopPayload) (c : Int)
    (hid : s.id = none) (hc : pyInt p.stop_code = some c) :
    Stop.set_from_api s p =
      (Except.ok (), { s with
                       stop_code := some c,
                       stop_name := some (strTake p.stop_name 300),
                       geom := some (Point.mk p.stop_lon p.stop_lat) }) ∧
    (strTake p.stop_name 300).data.length ≤ 300 ∧
    (300 < p.stop_name.data.length → (strTake p.stop_name 300).data.length = 300) ∧
    (p.stop_name.data.length ≤ 300 → strTake p.stop_name 300 = p.stop_name) := by
  refine ⟨?_, ?_, ?_, ?_⟩
  · simp [Stop.set_from_api, hid, hc]
  · simp [strTake, List.length_take]
  · intro hlen
    simp only [strTake, List.length_take]
    omega
  · intro hlen
    simp only [strTake, List.take_of_length_le hlen]

set_option maxRecDepth 8192 in
/-- Witness for C9: the over-length name is non-fatal and is stored cut to
exactly 300 characters. -/
theorem stop_name_truncated_to_300_witness :
    Stop.set_from_api emptyStop c9Payload =
      (Except.ok (), { emptyStop with
                       stop_code := some 2,
                       stop_name := some (strTake c9LongName 300),
                       geom := some (Point.mk 0 0) }) ∧
    (strTake c9LongName 300).data.length = 300 :=
  ⟨(stop_name_truncated_to_300 emptyStop c9Payload 2 rfl (by decide)).1,
   (stop_name_truncated_to_300 emptyStop c9Payload 2 rfl (by decide)).2.2.1 (by decide)⟩

/-- Shape of a successful `TripStop.set_from_api`: the payload's nested
stop id parsed, the stop lookup succeeded, and the only component of the
state that changes is the record itself, all five of its fields assigned. -/
theorem tripstop_set_ok_shape (st st0 : TSState) (p : TripStopPayload)
    (h : TripStop.set_from_api st p = (Except.ok (), st0)) :
    ∃ sid s0, pyInt p.stop_stop_id = some sid ∧ stopGet st.stops sid = Except.ok s0 ∧
      st0 = { st with
              record := TripStop.mk (some st.trip) (some s0)
                (some (specTimeOfDay p.arrival_time)) (some (specTimeOfDay p.departure_time))
                (some p.stop_sequence) } := by
  unfold TripStop.set_from_api at h
  cases hp : pyInt p.stop_stop_id with
  | none => simp only [hp] at h; exact absurd h (by simp)
  | some sid =>
    simp only [hp] at h
    cases hg : stopGet st.stops sid with
    | error e => simp only [hg] at h; exact absurd h (by simp)
    | ok s0 =>
      simp only [hg, pyTime_gmtime] at h
      refine ⟨sid, s0, rfl, hg, ?_⟩
      simpa using h.symm

/-- C5: a successful trip-stop populate stores for each integer time
value the wall-clock time obtained by reducing it modulo 86400 and
decomposing the remainder into hour/minute/second; 67504 gives 18:45:04
and 67707 gives 18:48:27. -/
theorem tripstop_times_are_modulo_86400
    (st st0 : TSState) (p : TripStopPayload)
    (h : TripStop.set_from_api st p = (Except.ok (), st0)) :
    (st0.record.arrival_time = some (specTimeOfDay p.arrival_time) ∧
      st0.record.departure_time = some (specTimeOfDay p.departure_time)) ∧
    specTimeOfDay 67504 = ⟨18, 45, 4⟩ ∧ specTimeOfDay 67707 = ⟨18, 48, 27⟩ := by
  obtain ⟨sid, s0, -, -, rfl⟩ := tripstop_set_ok_shape st st0 p h
  exact ⟨⟨rfl, rfl⟩, by decide, by decide⟩

/-- Witness for C5 at the documented payload. -/
theorem tripstop_times_are_modulo_86400_witness :
    (wResult.record.arrival_time = some (specTimeOfDay 67504) ∧
      wResult.record.departure_time = some (specTimeOfDay 67707)) ∧
    specTimeOfDay 67504 = ⟨18, 45, 4⟩ ∧ specTimeOfDay 67707 = ⟨18, 48, 27⟩ :=
  tripstop_times_are_modulo_86400 wState wResult wPayload rfl

/-- C10: a successful trip-stop populate changes only the record being
populated — the supplied trip and the stop table are untouched — and it
assigns exactly the record's five fields: trip, stop, the two times and
the sequence number. -/
theorem tripstop_populate_mutates_only_the_record
    (st st0 : TSState) (p : TripStopPayload)
    (h : TripStop.set_from_api st p = (Except.ok (), st0)) :
    st0.trip = st.trip ∧ st0.stops = st.stops ∧
    ∃ s0, stopGet st.stops ((pyInt p.stop_stop_id).getD 0) = Except.ok s0 ∧
      st0.record = TripStop.mk (some st.trip) (some s0)
        (some (specTimeOfDay p.arrival_time)) (some (specTimeOfDay p.departure_time))
        (some p.stop_sequence) := by
  obtain ⟨sid, s0, hp, hg, rfl⟩ := tripstop_set_ok_shape st st0 p h
  exact ⟨rfl, rfl, s0, by rw [hp]; exact hg, rfl⟩

/-- Witness for C10 at the documented payload. -/
theorem tripstop_populate_mutates_only_the_record_witness :
    wResult.trip = wState.trip ∧ wResult.stops = wState.stops :=
  ⟨(tripstop_populate_mutates_only_the_record wState wResult wPayload rfl).1,
   (tripstop_populate_mutates_only_the_record wState wResult wPayload rfl).2.1⟩

end BusStops
